import Mathlib

/-!
Shallow embedding of `src/main.py` of the movie-finder repository: the TMDB
client helpers (`get_genres`, `discover_movies`, `search_movies`,
`get_movie_details`, `get_movie_trailer`, `get_watch_providers`,
`get_similar_movies`) and the Flask routes (`search`, `movie_detail`),
modelled as pure functions of the upstream HTTP responses they consume.
Each helper in the Python source issues exactly one HTTP GET per invocation,
so it is embedded as a function of a single `Upstream` response value.
-/

namespace MovieFinder

/-- Outcome of one upstream HTTP GET as the helpers observe it: a parsed JSON
body on status 200, a non-200 status code, or a `requests` exception
(network, timeout, TLS). -/
inductive Upstream (α : Type) where
  | ok (body : α)
  | httpError (status : Nat)
  | netError
deriving DecidableEq

/-- Python truthiness of an optional string: `None` and `""` are falsy. -/
def truthyStr : Option String → Bool
  | none => false
  | some s => s != ""

/-- A TMDB genre record, as returned under the "genres" key. -/
structure Genre where
  id : Int
  name : String
deriving DecidableEq

/-- Body of `/genre/movie/list`: the optional "genres" key. -/
structure GenresBody where
  genres : Option (List Genre)
deriving DecidableEq

/-- Embeds `get_genres` of src/main.py: on a 200 response return
`resp.json().get("genres", [])`, on any non-200 status or network error
return `[]`. -/
def get_genres (resp : Upstream GenresBody) : List Genre :=
  match resp with
  | .ok b => b.genres.getD []
  | .httpError _ => []
  | .netError => []

/-- Body of a results-list endpoint (search, discover, videos, similar): the
optional "results" key, with the record type left abstract. -/
structure ResultsBody (α : Type) where
  results : Option (List α)
deriving DecidableEq

/-- The query parameters `discover_movies` sends beyond api_key and language. -/
structure DiscoverParams where
  sort_by : String
  with_genres : Option String
  primary_release_year : Option String
deriving DecidableEq

/-- Parameter construction in `discover_movies`: `sort_by` is fixed to
"popularity.desc" and each filter is added only when its argument is truthy. -/
def discover_params (genre_id year : Option String) : DiscoverParams :=
  { sort_by := "popularity.desc"
    with_genres := if truthyStr genre_id then genre_id else none
    primary_release_year := if truthyStr year then year else none }

/-- Embeds `discover_movies` of src/main.py as a function of the single
upstream response its one GET receives: `resp.json().get("results", [])` on
200, `[]` otherwise. The filter arguments only shape the request parameters
(see `discover_params`), never the response handling. -/
def discover_movies (α : Type) (_genre_id _year : Option String)
    (resp : Upstream (ResultsBody α)) : List α :=
  match resp with
  | .ok b => b.results.getD []
  | .httpError _ => []
  | .netError => []

/-- Embeds `search_movies` of src/main.py: with a truthy query it hits
`/search/movie` and returns `results` on 200 and `[]` on failure; with a
falsy query it falls back to `discover_movies`. -/
def search_movies (α : Type) (query genre_id year : Option String)
    (resp : Upstream (ResultsBody α)) : List α :=
  if truthyStr query then
    match resp with
    | .ok b => b.results.getD []
    | .httpError _ => []
    | .netError => []
  else discover_movies α genre_id year resp

/-- Which upstream call the search resolution ends up making, together with
the filter arguments passed to it. -/
inductive SearchPlan where
  | discover (genre_id year : Option String)
  | searchMovie (query : String) (genre_id year : Option String)
deriving DecidableEq

/-- The call `search_movies` makes: `/search/movie` when the query is truthy,
otherwise the discover fallback. -/
def search_movies_plan (query genre_id year : Option String) : SearchPlan :=
  if truthyStr query then .searchMovie (query.getD "") genre_id year
  else .discover genre_id year

/-- The whitespace class of Python `str.strip()` (ASCII whitespace). -/
def pySpace (c : Char) : Bool :=
  c == ' ' || c == '\t' || c == '\n' || c == '\r' || c == '\x0b' || c == '\x0c'

/-- Python `str.strip()`: drop leading and trailing whitespace. -/
def pyStrip (s : String) : String :=
  String.mk (((s.data.dropWhile pySpace).reverse.dropWhile pySpace).reverse)

/-- The `query if query else None` idiom of the search route: an empty
stripped field is passed on as `None`. -/
def noneIfEmpty (s : String) : Option String :=
  if s = "" then none else some s

/-- Embeds the `/search` route of src/main.py at the level of the upstream
call it decides on: the three form fields (query, genre, year) are stripped;
when all three are empty the route calls `discover_movies()` with no filters,
otherwise it calls `search_movies` with each empty field replaced by `None`. -/
def search_route (query genre year : String) : SearchPlan :=
  let q := pyStrip query
  let g := pyStrip genre
  let y := pyStrip year
  if q = "" ∧ g = "" ∧ y = "" then .discover none none
  else search_movies_plan (noneIfEmpty q) (noneIfEmpty g) (noneIfEmpty y)

/-- The upstream movie-details record, reduced to what the code observes:
whether an "id" key is present, and whether any other key (title, overview,
and so on) is present. Python truthiness of the dict depends only on whether
it has at least one key. -/
structure DetailBody where
  id : Option Int
  hasOtherKeys : Bool
deriving DecidableEq

/-- Python truthiness of the details dict: a dict is truthy iff non-empty. -/
def DetailBody.truthy (d : DetailBody) : Bool :=
  d.id.isSome || d.hasOtherKeys

/-- Embeds `get_movie_details` of src/main.py: the parsed body on 200,
`None` on any non-200 status or network error. -/
def get_movie_details (resp : Upstream DetailBody) : Option DetailBody :=
  match resp with
  | .ok b => some b
  | .httpError _ => none
  | .netError => none

/-- Truthiness of the `get_movie_details` result, as the route tests it with
`if not movie`. -/
def truthyDetails : Option DetailBody → Bool
  | none => false
  | some d => d.truthy

/-- One entry of the videos list: the keys `get_movie_trailer` reads. -/
structure Video where
  site : Option String
  type : Option String
  key : Option String
deriving DecidableEq

/-- The URL the code builds for a YouTube video key. -/
def youtubeUrl (k : String) : String :=
  "https://www.youtube.com/watch?v=" ++ k

/-- The loop of `get_movie_trailer`: scan the videos in upstream order; on a
video whose site is "YouTube" and whose type is "Trailer", return its URL if
its key is truthy, otherwise keep scanning. -/
def findTrailer : List Video → Option String
  | [] => none
  | v :: rest =>
    if v.site == some "YouTube" && v.type == some "Trailer" then
      match v.key with
      | some k => if k = "" then findTrailer rest else some (youtubeUrl k)
      | none => findTrailer rest
    else findTrailer rest

/-- Embeds `get_movie_trailer` of src/main.py: scan `results` on 200, return
`None` when nothing is found or on any failure. -/
def get_movie_trailer (resp : Upstream (ResultsBody Video)) : Option String :=
  match resp with
  | .ok b => findTrailer (b.results.getD [])
  | .httpError _ => none
  | .netError => none

/-- The selection rule exactly as the claim states it: the URL built from the
key of the first video whose site is "YouTube" and whose type is "Trailer",
absent when no such video exists. -/
def trailer_claimed (videos : List Video) : Option String :=
  (videos.find? (fun v => v.site == some "YouTube" && v.type == some "Trailer")).bind
    (fun v => v.key.map youtubeUrl)

/-- The amended selection rule: the first video whose site is "YouTube",
whose type is "Trailer" and whose key is truthy wins; absent when no such
video exists. -/
def trailer_amended (videos : List Video) : Option String :=
  (videos.find? (fun v =>
      (v.site == some "YouTube" && v.type == some "Trailer") && truthyStr v.key)).map
    (fun v => youtubeUrl (v.key.getD ""))

/-- One provider entry of a region group: the key the code reads. -/
structure ProviderEntry where
  provider_name : Option String
deriving DecidableEq

/-- A per-region entry of the providers response: the three group keys the
code iterates over, plus whether any other key (such as "link") is present,
which matters only for Python truthiness of the dict. -/
structure RegionData where
  flatrate : Option (List ProviderEntry)
  rent : Option (List ProviderEntry)
  buy : Option (List ProviderEntry)
  hasOtherKeys : Bool
deriving DecidableEq

/-- Python truthiness of a region dict: truthy iff at least one key. -/
def RegionData.truthy (d : RegionData) : Bool :=
  d.flatrate.isSome || d.rent.isSome || d.buy.isSome || d.hasOtherKeys

/-- Body of `/movie/id/watch/providers`: the optional "results" mapping from
region code to region dict, as an association list with distinct keys. -/
structure ProvidersBody where
  results : Option (List (String × RegionData))
deriving DecidableEq

/-- Python `dict.get(k)` on the results mapping. -/
def dictGet (m : List (String × RegionData)) (k : String) : Option RegionData :=
  (m.find? (fun kv => kv.1 == k)).map (fun kv => kv.2)

/-- Python `x or y` over optional region dicts: `None` and the empty dict are
falsy, so `y` is taken exactly when `x` is falsy. -/
def pyOrRegion (a b : Option RegionData) : Option RegionData :=
  match a with
  | some d => if d.truthy then some d else b
  | none => b

/-- Truthiness of the selected `region_data`, as tested by
`if not region_data`. -/
def truthyRegion : Option RegionData → Bool
  | none => false
  | some d => d.truthy

/-- One record the code appends to its flat `providers` list: the provider
display name and the group kind it came from. -/
structure Provider where
  name : Option String
  type : String
deriving DecidableEq

/-- The records contributed by one group key of the region dict. -/
def kindProviders (kind : String) (l : Option (List ProviderEntry)) : List Provider :=
  (l.getD []).map (fun p => { name := p.provider_name, type := kind })

/-- The loop over `("flatrate", "rent", "buy")` in `get_watch_providers`. -/
def regionProviders (d : RegionData) : List Provider :=
  kindProviders "flatrate" d.flatrate ++ kindProviders "rent" d.rent ++
    kindProviders "buy" d.buy

/-- Embeds `get_watch_providers` of src/main.py (default region "IE"): on a
200 response, select `results.get(region) or results.get("US")`, return `[]`
when that is falsy, otherwise flatten the three groups; `[]` on any failure. -/
def get_watch_providers (region : String) (resp : Upstream ProvidersBody) :
    List Provider :=
  match resp with
  | .ok b =>
    match pyOrRegion (dictGet (b.results.getD []) region)
        (dictGet (b.results.getD []) "US") with
    | none => []
    | some d => if d.truthy then regionProviders d else []
  | .httpError _ => []
  | .netError => []

/-- The providers that region `k` of the results mapping would yield, with a
missing key yielding none. -/
def lookupProviders (b : ProvidersBody) (k : String) : List Provider :=
  match dictGet (b.results.getD []) k with
  | none => []
  | some d => regionProviders d

/-- One raw record of the similar-movies results: the keys the code reads.
The rating is modelled as an exact rational, faithful to the code because
`get_similar_movies` performs no arithmetic on it. -/
structure SimilarRaw where
  id : Option Int
  title : Option String
  poster_path : Option String
  vote_average : Option ℚ
  release_date : Option String
deriving DecidableEq

/-- The record `get_similar_movies` builds for each entry: exactly the keys
id, title, poster_path, vote_average and release_date, the last one
defaulting to `""` when absent upstream. -/
structure SimilarMovie where
  id : Option Int
  title : Option String
  poster_path : Option String
  vote_average : Option ℚ
  release_date : String
deriving DecidableEq

/-- The per-entry projection inside the loop of `get_similar_movies`. -/
def projectSimilar (m : SimilarRaw) : SimilarMovie :=
  { id := m.id
    title := m.title
    poster_path := m.poster_path
    vote_average := m.vote_average
    release_date := m.release_date.getD "" }

/-- Embeds `get_similar_movies` of src/main.py: the first 8 results in
upstream order, each projected, and `[]` on any failure. -/
def get_similar_movies (resp : Upstream (ResultsBody SimilarRaw)) :
    List SimilarMovie :=
  match resp with
  | .ok b => ((b.results.getD []).take 8).map projectSimilar
  | .httpError _ => []
  | .netError => []

/-- A rational carries at most one decimal place when ten times it is an
integer. -/
def oneDecimal (q : ℚ) : Prop := ∃ n : ℤ, q * 10 = (n : ℚ)

/-- The four upstream responses a detail-page request consumes, one per
helper call the route makes. -/
structure DetailResponses where
  details : Upstream DetailBody
  videos : Upstream (ResultsBody Video)
  providers : Upstream ProvidersBody
  similar : Upstream (ResultsBody SimilarRaw)
deriving DecidableEq

/-- Outcome of the detail route: the `("Movie not found", 404)` response, or
the data handed to the rendered template. -/
inductive DetailOutcome where
  | notFound
  | page (movie : DetailBody) (trailer : Option String)
      (providers : List Provider) (similar : List SimilarMovie)
deriving DecidableEq

/-- Embeds the `movie_detail` route of src/main.py. The route receives the
request's query-string arguments but never reads them; the provider call is
`get_watch_providers(movie_id)`, which uses the helper's default region
"IE". -/
def movie_detail (_movie_id : Nat) (_queryArgs : List (String × String))
    (r : DetailResponses) : DetailOutcome :=
  match get_movie_details r.details with
  | none => .notFound
  | some m =>
    if m.truthy then
      .page m (get_movie_trailer r.videos)
        (get_watch_providers "IE" r.providers) (get_similar_movies r.similar)
    else .notFound

/-- The output shape claim C2 describes: three groups keyed stream, buy and
rent, each a list of provider display names, present as an empty list when
the group is missing upstream. -/
structure GroupedProviders where
  stream : List String
  buy : List String
  rent : List String
deriving DecidableEq

/-- A region entry holding a single flatrate provider named "NetflixIE". -/
def ieData : RegionData :=
  { flatrate := some [{ provider_name := some "NetflixIE" }]
    rent := none, buy := none, hasOtherKeys := false }

/-- A region entry holding a single flatrate provider named "NetflixUS". -/
def usData : RegionData :=
  { flatrate := some [{ provider_name := some "NetflixUS" }]
    rent := none, buy := none, hasOtherKeys := false }

/-- A region entry holding a single flatrate provider named "SkyGB". -/
def gbData : RegionData :=
  { flatrate := some [{ provider_name := some "SkyGB" }]
    rent := none, buy := none, hasOtherKeys := false }

/-- A providers response carrying distinct data for IE, US and GB. -/
def provRespC1 : Upstream ProvidersBody :=
  .ok { results := some [("IE", ieData), ("US", usData), ("GB", gbData)] }

/-- Detail responses where only the details and providers calls succeed. -/
def respsC1 : DetailResponses :=
  { details := .ok { id := some 1, hasOtherKeys := true }
    videos := .netError, providers := provRespC1, similar := .netError }

/-- A region entry holding a single flatrate provider named "Netflix" and
nothing else. -/
def flatOnly : RegionData :=
  { flatrate := some [{ provider_name := some "Netflix" }]
    rent := none, buy := none, hasOtherKeys := false }

/-- The providers body whose only entry is `flatOnly` under "IE". -/
def bodyC2 : ProvidersBody := { results := some [("IE", flatOnly)] }

/-- The providers response around `bodyC2`. -/
def provRespC2 : Upstream ProvidersBody := .ok bodyC2

/-- Detail responses whose details call fails with a network error while
every other call succeeds. -/
def respsC3 : DetailResponses :=
  { details := .netError
    videos := .ok { results := some [] }
    providers := .ok { results := some [] }
    similar := .ok { results := some [] } }

/-- An upstream details record with a title-like key but no "id" key. -/
def detailNoId : DetailBody := { id := none, hasOtherKeys := true }

/-- Detail responses whose details body lacks an "id" key. -/
def respsC4 : DetailResponses :=
  { details := .ok detailNoId
    videos := .netError, providers := .netError, similar := .netError }

/-- A YouTube Trailer video whose key is absent. -/
def vNoKey : Video :=
  { site := some "YouTube", type := some "Trailer", key := none }

/-- A YouTube Trailer video whose key is "abc". -/
def vAbc : Video :=
  { site := some "YouTube", type := some "Trailer", key := some "abc" }

/-- A videos list whose first YouTube Trailer has no key and whose second
one has key "abc". -/
def videosC5 : List Video := [vNoKey, vAbc]

/-- The videos response around `videosC5`. -/
def respC5 : Upstream (ResultsBody Video) := .ok { results := some videosC5 }

/-- A raw similar-movies record with the two-decimal rating 29/4 = 7.25. -/
def simRawC8 : SimilarRaw :=
  { id := some 1, title := some "M", poster_path := none
    vote_average := some ((29 : ℚ) / 4), release_date := none }

/-- A similar-movies response whose single record is `simRawC8`. -/
def simRespC8 : Upstream (ResultsBody SimilarRaw) :=
  .ok { results := some [simRawC8] }

/-- A US region dict that is truthy (it has a "link"-like key) but has no
provider group. -/
def usLinkOnly : RegionData :=
  { flatrate := none, rent := none, buy := none, hasOtherKeys := true }

/-- The providers body whose only entry is `usLinkOnly` under "US". -/
def bodyC10 : ProvidersBody :=
  { results := some [("US", usLinkOnly)] }

/-- The providers response around `bodyC10`. -/
def provRespC10 : Upstream ProvidersBody := .ok bodyC10

/-- Detail responses where the details call succeeds with a truthy record
while every other sub-call fails, so the page renders with empty parts. -/
def respsPartialFail : DetailResponses :=
  { details := .ok { id := some 7, hasOtherKeys := true }
    videos := .netError, providers := .httpError 500, similar := .netError }

/-- A raw similar-movies record with no field present at all; in particular
its rating is absent. -/
def simRawNone : SimilarRaw :=
  { id := none, title := none, poster_path := none
    vote_average := none, release_date := none }

/-- C1, counterexample: on a concrete detail request carrying
region=US — a canonical region code present in the upstream mapping — the
provider data rendered is the hard-coded IE region's, not the US region's,
and the outcome is identical to that of the unknown region ZZ: the supplied
region is neither validated against an allow-list nor used at all. -/
theorem c1_region_counterexample :
    movie_detail 1 [("region", "US")] respsC1
      = DetailOutcome.page { id := some 1, hasOtherKeys := true } none
          [{ name := some "NetflixIE", type := "flatrate" }] [] ∧
    get_watch_providers "US" provRespC1
      = [{ name := some "NetflixUS", type := "flatrate" }] ∧
    movie_detail 1 [("region", "US")] respsC1
      = movie_detail 1 [("region", "ZZ")] respsC1 := by
  refine ⟨rfl, rfl, rfl⟩

/-- C1, amended: the detail route ignores its query-string arguments
entirely — no region validation happens — and the watch-provider call is
always made with the helper's hard-coded default region "IE". -/
theorem c1_region_ignored (mid : Nat) (args argsB : List (String × String))
    (r : DetailResponses) (m : DetailBody) :
    movie_detail mid args r = movie_detail mid argsB r ∧
    movie_detail mid args { r with details := .ok m }
      = (if m.truthy then
          DetailOutcome.page m (get_movie_trailer r.videos)
            (get_watch_providers "IE" r.providers) (get_similar_movies r.similar)
        else .notFound) := by
  exact ⟨rfl, rfl⟩

/-- C3, counterexample: a network failure of the upstream details call does
not degrade to a rendered page with empty data — the route answers with the
`("Movie not found", 404)` outcome, an error response, even though all other
sub-calls succeed. -/
theorem c3_details_failure_counterexample :
    movie_detail 1 [] respsC3 = DetailOutcome.notFound := by
  rfl

/-- C3, amended: within every helper a non-200 response and a network
failure collapse to one and the same empty result and are never
distinguished; failures of the trailer, provider and similar sub-calls
still render the page with empty parts; but a failure of the details call
yields None and the route then returns the 404 outcome instead of
rendering. -/
theorem c3_failure_collapse (s mid : Nat) (args : List (String × String))
    (r : DetailResponses) :
    get_genres (Upstream.httpError s) = get_genres .netError ∧
    get_movie_details (Upstream.httpError s) = get_movie_details .netError ∧
    get_movie_trailer (Upstream.httpError s) = get_movie_trailer .netError ∧
    get_watch_providers "IE" (Upstream.httpError s)
      = get_watch_providers "IE" .netError ∧
    get_similar_movies (Upstream.httpError s) = get_similar_movies .netError ∧
    movie_detail mid args respsPartialFail
      = DetailOutcome.page { id := some 7, hasOtherKeys := true } none [] [] ∧
    movie_detail mid args { r with details := .netError }
      = DetailOutcome.notFound ∧
    movie_detail mid args { r with details := .httpError s }
      = DetailOutcome.notFound := by
  exact ⟨rfl, rfl, rfl, rfl, rfl, rfl, rfl, rfl⟩

/-- C4, counterexample: an upstream details record that lacks an "id" key
but has other keys is not treated as not found — the route renders the
page from it. -/
theorem c4_missing_id_counterexample :
    movie_detail 5 [] respsC4 = DetailOutcome.page detailNoId none [] [] ∧
    movie_detail 5 [] respsC4 ≠ DetailOutcome.notFound := by
  exact ⟨rfl, by decide⟩

/-- C4, amended: the route answers 404 exactly when the details result is
falsy — None from any non-200 status (a nonexistent id gives a 404 status)
or network failure, or an empty record; the presence of an "id" key is
never checked, and no page is rendered in the 404 case. -/
theorem c4_not_found_iff_falsy (mid : Nat) (args : List (String × String))
    (r : DetailResponses) :
    (movie_detail mid args r = DetailOutcome.notFound ↔
      truthyDetails (get_movie_details r.details) = false) ∧
    movie_detail mid args { r with details := .httpError 404 }
      = DetailOutcome.notFound := by
  constructor
  · cases h : get_movie_details r.details with
    | none => simp [movie_detail, truthyDetails, h]
    | some m =>
      cases hm : m.truthy <;> simp [movie_detail, truthyDetails, h, hm]
  · rfl

/-- C6: every call of the list helpers — genre list, discover, search —
yields the empty list on any non-200 status and on any network failure; in
particular every well-formed search whose one upstream call fails produces
an empty results list. -/
theorem c6_failed_calls_empty (s : Nat) (q g y : Option String) (α : Type) :
    get_genres (Upstream.httpError s) = [] ∧ get_genres .netError = [] ∧
    discover_movies α g y (.httpError s) = [] ∧
    discover_movies α g y .netError = [] ∧
    search_movies α q g y (.httpError s) = [] ∧
    search_movies α q g y .netError = [] := by
  refine ⟨rfl, rfl, rfl, rfl, ?_, ?_⟩ <;>
    · unfold search_movies
      cases h : truthyStr q <;> simp [h, discover_movies]

/-- The trailer scan skips a matching video whose key is falsy and keeps
scanning, so it computes the first YouTube Trailer with a truthy key. -/
lemma findTrailer_eq_amended (l : List Video) :
    findTrailer l = trailer_amended l := by
  induction l with
  | nil => rfl
  | cons v rest ih =>
    unfold findTrailer trailer_amended
    unfold trailer_amended at ih
    cases hm : (v.site == some "YouTube" && v.type == some "Trailer") with
    | false => simp [List.find?_cons, hm, ih]
    | true =>
      cases hk : v.key with
      | none => simp [List.find?_cons, hm, hk, truthyStr, ih]
      | some k =>
        by_cases he : k = ""
        · simp [List.find?_cons, hm, hk, he, truthyStr, ih]
        · simp [List.find?_cons, hm, hk, he, truthyStr, ih]

/-- C5, counterexample: with a keyless YouTube Trailer first and a keyed one
second, the first site-and-type match is the keyless video, yet the code
returns the URL of the second one — the first such match does not win. -/
theorem c5_first_match_counterexample :
    get_movie_trailer respC5 = some (youtubeUrl "abc") ∧
    videosC5.find? (fun v =>
        v.site == some "YouTube" && v.type == some "Trailer") = some vNoKey ∧
    trailer_claimed videosC5 = none ∧
    get_movie_trailer respC5 ≠ trailer_claimed videosC5 := by
  refine ⟨rfl, rfl, rfl, by decide⟩

/-- C5, amended: trailer selection returns the URL of the first video in
upstream order whose site is "YouTube", whose type is "Trailer" and whose
key is truthy; when no such video exists, or on any upstream failure, the
trailer URL is None rather than an error. -/
theorem c5_first_keyed_trailer (b : ResultsBody Video) (s : Nat) :
    get_movie_trailer (.ok b) = trailer_amended (b.results.getD []) ∧
    get_movie_trailer (Upstream.httpError s) = none ∧
    get_movie_trailer Upstream.netError = none := by
  exact ⟨findTrailer_eq_amended _, rfl, rfl⟩

/-- C7: the similar-movies operation keeps at most 8 entries, taken from the
front of the upstream list with order preserved and nothing re-ranked or
deduplicated, each entry projected by `projectSimilar` to exactly the
fields id, title, poster_path, vote_average and release_date. -/
theorem c7_similar_front_eight (b : ResultsBody SimilarRaw) (i : Nat)
    (h : i < 8) :
    (get_similar_movies (.ok b)).length = min 8 (b.results.getD []).length ∧
    (get_similar_movies (.ok b))[i]?
      = ((b.results.getD [])[i]?).map projectSimilar := by
  constructor
  · simp [get_similar_movies]
  · show (((b.results.getD []).take 8).map projectSimilar)[i]? = _
    rw [List.getElem?_map, List.getElem?_take_of_lt h]

/-- C7, witness: the projection theorem applied to the one-record response
at index 0. -/
theorem c7_similar_front_eight_witness :
    (get_similar_movies (.ok { results := some [simRawC8] })).length
      = min 8 (({ results := some [simRawC8] } :
          ResultsBody SimilarRaw).results.getD []).length ∧
    (get_similar_movies (.ok { results := some [simRawC8] }))[0]?
      = ((({ results := some [simRawC8] } :
          ResultsBody SimilarRaw).results.getD [])[0]?).map projectSimilar :=
  c7_similar_front_eight { results := some [simRawC8] } 0 (by decide)

/-- C8, counterexample: a present rating is not rounded to one decimal
place — the two-decimal upstream rating 29/4 = 7.25 is passed through
unchanged into the produced record. -/
theorem c8_no_rounding_counterexample :
    (get_similar_movies simRespC8).map (fun m => m.vote_average)
      = [some ((29 : ℚ) / 4)] ∧
    ¬ oneDecimal ((29 : ℚ) / 4) := by
  constructor
  · rfl
  · rintro ⟨n, hn⟩
    have h2 : (2 * n : ℚ) = 145 := by rw [← hn]; ring
    have h3 : (2 * n : ℤ) = 145 := by exact_mod_cast h2
    omega

/-- C8, amended: the rating of every produced record is the upstream
vote_average passed through unchanged — no rounding is applied — and an
absent upstream rating stays absent, never defaulting to 0. -/
theorem c8_rating_passthrough (m : SimilarRaw) (hm : m.vote_average = none)
    (b : ResultsBody SimilarRaw) :
    (projectSimilar m).vote_average = m.vote_average ∧
    (projectSimilar m).vote_average ≠ some 0 ∧
    (get_similar_movies (.ok b)).map (fun x => x.vote_average)
      = ((b.results.getD []).take 8).map (fun x => x.vote_average) := by
  refine ⟨rfl, ?_, ?_⟩
  · simp [projectSimilar, hm]
  · show (((b.results.getD []).take 8).map projectSimilar).map
        (fun x => x.vote_average) = _
    rw [List.map_map]
    exact rfl

/-- C8, witness: the pass-through theorem applied to the record with no
rating and to the one-record response. -/
theorem c8_rating_passthrough_witness :
    (projectSimilar simRawNone).vote_average = simRawNone.vote_average ∧
    (projectSimilar simRawNone).vote_average ≠ some 0 ∧
    (get_similar_movies (.ok { results := some [simRawC8] })).map
        (fun x => x.vote_average)
      = ((({ results := some [simRawC8] } :
          ResultsBody SimilarRaw).results.getD []).take 8).map
          (fun x => x.vote_average) :=
  c8_rating_passthrough simRawNone (by decide) { results := some [simRawC8] }

/-- Filtering the flat provider list by a group kind recovers exactly that
group's records, because every record carries the kind it came from. -/
lemma filter_map_const {α β : Type} (f : α → β) (p : β → Bool) (c : Bool)
    (hc : ∀ a, p (f a) = c) (l : List α) :
    (l.map f).filter p = if c then l.map f else [] := by
  induction l with
  | nil => cases c <;> simp
  | cons a t ih =>
    simp only [List.map_cons, List.filter_cons, hc a]
    cases c <;> simp_all

lemma filter_kindProviders (k k2 : String) (l : Option (List ProviderEntry)) :
    (kindProviders k l).filter (fun p => p.type == k2)
      = if k == k2 then kindProviders k l else [] := by
  unfold kindProviders
  exact filter_map_const
    (fun p => ({ name := p.provider_name, type := k } : Provider))
    (fun p => p.type == k2) (k == k2) (fun a => rfl) (l.getD [])

/-- Every record of the flat provider list carries one of the three kinds
flatrate, rent, buy. -/
lemma regionProviders_kinds (d : RegionData) :
    (regionProviders d).all (fun p =>
      p.type == "flatrate" || p.type == "rent" || p.type == "buy") = true := by
  unfold regionProviders kindProviders
  simp [List.all_append, List.all_map, Function.comp]

/-- C2, counterexample: a successful provider lookup does not produce the
three keyed groups stream, buy and rent of display names — on a concrete
response with one streaming provider the result is a flat list of
name-and-kind records, its only group tag is "flatrate", and no record's
tag lies in the claimed group set at all. -/
theorem c2_grouped_output_counterexample :
    get_watch_providers "IE" provRespC2
      = [{ name := some "Netflix", type := "flatrate" }] ∧
    (get_watch_providers "IE" provRespC2).all (fun p =>
      p.type == "stream" || p.type == "buy" || p.type == "rent") = false := by
  exact ⟨rfl, rfl⟩

/-- C2, amended: a successful lookup yields a single flat list of records,
each holding the provider display name and the group kind it came from;
the kinds are exactly flatrate, rent and buy, filtering by a kind recovers
that group's names in upstream order, and a group missing upstream simply
contributes no records. -/
theorem c2_flat_partition (d : RegionData) (region : String)
    (b : ProvidersBody)
    (h : pyOrRegion (dictGet (b.results.getD []) region)
        (dictGet (b.results.getD []) "US") = some d)
    (ht : d.truthy = true) :
    get_watch_providers region (.ok b) = regionProviders d ∧
    (regionProviders d).filter (fun p => p.type == "flatrate")
      = kindProviders "flatrate" d.flatrate ∧
    (regionProviders d).filter (fun p => p.type == "rent")
      = kindProviders "rent" d.rent ∧
    (regionProviders d).filter (fun p => p.type == "buy")
      = kindProviders "buy" d.buy ∧
    (regionProviders d).all (fun p =>
      p.type == "flatrate" || p.type == "rent" || p.type == "buy") = true := by
  refine ⟨?_, ?_, ?_, ?_, regionProviders_kinds d⟩
  · simp only [get_watch_providers]
    rw [h]
    simp [ht]
  all_goals
    unfold regionProviders
    simp [List.filter_append, filter_kindProviders]

/-- C2, witness: the flat-partition theorem applied to the one-entry IE
response holding a single flatrate provider. -/
theorem c2_flat_partition_witness :
    get_watch_providers "IE" (.ok bodyC2) = regionProviders flatOnly ∧
    (regionProviders flatOnly).filter (fun p => p.type == "flatrate")
      = kindProviders "flatrate" flatOnly.flatrate ∧
    (regionProviders flatOnly).filter (fun p => p.type == "rent")
      = kindProviders "rent" flatOnly.rent ∧
    (regionProviders flatOnly).filter (fun p => p.type == "buy")
      = kindProviders "buy" flatOnly.buy ∧
    (regionProviders flatOnly).all (fun p =>
      p.type == "flatrate" || p.type == "rent" || p.type == "buy") = true :=
  c2_flat_partition flatOnly "IE" bodyC2 (by decide) (by decide)

/-- Stripping a string made only of whitespace leaves the empty string. -/
lemma pyStrip_all_space (s : String) (h : s.data.all pySpace = true) :
    pyStrip s = "" := by
  unfold pyStrip
  have h1 : s.data.dropWhile pySpace = [] := by
    rw [List.dropWhile_eq_nil_iff]
    intro x hx
    exact List.all_eq_true.mp h x hx
  rw [h1]
  rfl

/-- C9: the search route strips each of the three form fields and treats a
whitespace-only value as absent; a submission whose fields are all empty or
whitespace-only resolves to the discover call with no filters, whose
parameters are exactly the unfiltered popularity-sorted discovery call. -/
theorem c9_blank_fields_discover (query genre year : String)
    (hq : query.data.all pySpace = true) (hg : genre.data.all pySpace = true)
    (hy : year.data.all pySpace = true) :
    search_route query genre year = SearchPlan.discover none none ∧
    discover_params none none
      = { sort_by := "popularity.desc", with_genres := none
          primary_release_year := none } := by
  constructor
  · unfold search_route
    simp [pyStrip_all_space query hq, pyStrip_all_space genre hg,
      pyStrip_all_space year hy]
  · rfl

/-- C9, witness: the blank-submission theorem applied to a space, an empty
string and a tab-newline string. -/
theorem c9_blank_fields_discover_witness :
    (" ".data.all pySpace = true ∧ "".data.all pySpace = true ∧
      "\t\n".data.all pySpace = true) ∧
    (search_route " " "" "\t\n" = SearchPlan.discover none none ∧
      discover_params none none
        = { sort_by := "popularity.desc", with_genres := none
            primary_release_year := none }) :=
  ⟨⟨by decide, by decide, by decide⟩,
    c9_blank_fields_discover " " "" "\t\n" (by decide) (by decide) (by decide)⟩

/-- A falsy first operand makes the Python or-expression take its second
operand. -/
lemma pyOrRegion_falsy (a b : Option RegionData)
    (h : truthyRegion a = false) : pyOrRegion a b = b := by
  cases a with
  | none => rfl
  | some d =>
    simp only [truthyRegion] at h
    simp [pyOrRegion, h]

/-- The Python or-expression of an operand with itself is that operand. -/
lemma pyOrRegion_self (a : Option RegionData) : pyOrRegion a a = a := by
  cases a with
  | none => rfl
  | some d =>
    unfold pyOrRegion
    cases h : d.truthy <;> simp [h]

/-- C10, counterexample: with the requested region IE absent from the
results mapping and a truthy US entry that merely has no provider group,
the lookup returns the empty list even though the US entry is neither
missing nor falsy. -/
theorem c10_empty_despite_us_counterexample :
    dictGet (bodyC10.results.getD []) "IE" = none ∧
    truthyRegion (dictGet (bodyC10.results.getD []) "US") = true ∧
    get_watch_providers "IE" provRespC10 = [] := by
  exact ⟨rfl, rfl, rfl⟩

/-- C10, amended: when the requested region has no entry or a falsy entry
in the results mapping, the lookup silently falls back to the US entry —
it equals the lookup for region "US" — and it returns the empty list
exactly when the US entry is missing or falsy, or when the US entry's
three provider groups are all empty or missing. -/
theorem c10_us_fallback (region : String) (b : ProvidersBody)
    (h : truthyRegion (dictGet (b.results.getD []) region) = false) :
    get_watch_providers region (.ok b) = get_watch_providers "US" (.ok b) ∧
    (get_watch_providers region (.ok b) = [] ↔
      truthyRegion (dictGet (b.results.getD []) "US") = false ∨
        lookupProviders b "US" = []) := by
  have hfb : pyOrRegion (dictGet (b.results.getD []) region)
      (dictGet (b.results.getD []) "US")
      = dictGet (b.results.getD []) "US" := pyOrRegion_falsy _ _ h
  constructor
  · simp only [get_watch_providers]
    rw [hfb, pyOrRegion_self]
  · simp only [get_watch_providers]
    rw [hfb]
    cases hus : dictGet (b.results.getD []) "US" with
    | none => simp [truthyRegion, lookupProviders, hus]
    | some d =>
      cases hd : d.truthy <;>
        simp [truthyRegion, lookupProviders, hus, hd]

/-- C10, witness: the fallback theorem applied to the mapping that has only
a truthy but group-less US entry. -/
theorem c10_us_fallback_witness :
    truthyRegion (dictGet (bodyC10.results.getD []) "IE") = false ∧
    (get_watch_providers "IE" (.ok bodyC10)
        = get_watch_providers "US" (.ok bodyC10) ∧
      (get_watch_providers "IE" (.ok bodyC10) = [] ↔
        truthyRegion (dictGet (bodyC10.results.getD []) "US") = false ∨
          lookupProviders bodyC10 "US" = [])) :=
  ⟨by decide, c10_us_fallback "IE" bodyC10 (by decide)⟩

end MovieFinder
